import Mathlib

/-!
Shallow embedding of the polling / reconciliation core of
`librechat-dashboard.py` (classes `SystemMonitor`, `ServiceMonitor`,
`ProcessRunner`), with theorems checking the specification's claims.

External effects (subprocess runs, psutil queries) are modelled as
explicit environment values: a subprocess run either yields a captured
stdout string or raises (timeout / missing binary), and the process
table is a partial map from PID to process information.
-/

/-- Substring test on character lists: `listStartsWith n h` is true when
`n` is an initial segment of `h` (mirrors Python `str.startswith`). -/
def listStartsWith : List Char → List Char → Bool
  | [], _ => true
  | _ :: _, [] => false
  | n :: ns, h :: hs => (n = h) && listStartsWith ns hs

/-- `listSub n h` is true when `n` occurs as a contiguous run inside `h`
(mirrors Python `n in h` on strings, at the character-list level). -/
def listSub : List Char → List Char → Bool
  | ns, [] => listStartsWith ns []
  | ns, h :: hs => listStartsWith ns (h :: hs) || listSub ns hs

/-- Python `needle in haystack` substring containment on strings. -/
def strHasSub (needle haystack : String) : Bool :=
  listSub needle.data haystack.data

/-- ASCII whitespace, the characters Python `str.strip()` removes in
the replies at hand. -/
def isPySpace (c : Char) : Bool :=
  c = ' ' || c = '\t' || c = '\n' || c = '\r' || c = '\x0b' || c = '\x0c'

/-- Drop leading whitespace from a character list. -/
def dropLeadingSpace : List Char → List Char
  | [] => []
  | c :: cs => if isPySpace c then dropLeadingSpace cs else c :: cs

/-- Python `str.strip()` on a character list: drop trailing then
leading whitespace. -/
def pyStripChars (cs : List Char) : List Char :=
  dropLeadingSpace ((dropLeadingSpace cs.reverse).reverse)

/-- Python `str.strip()`. -/
def pyStrip (s : String) : String :=
  String.mk (pyStripChars s.data)

/-- Python `str.split('=')`: the chunks between the `=` occurrences
(an empty input yields one empty chunk, like Python). -/
def pySplitEq : List Char → List (List Char)
  | [] => [[]]
  | c :: cs =>
      if c = '=' then [] :: pySplitEq cs
      else
        match pySplitEq cs with
        | [] => [[c]]
        | p :: ps => (c :: p) :: ps

/-- ASCII lowering of one character, what Python `str.lower()` does to
the command lines and filters at hand. -/
def pyCharLower (c : Char) : Char :=
  if 'A' ≤ c ∧ c ≤ 'Z' then Char.ofNat (c.toNat + 32) else c

/-- Python `str.lower()`. -/
def pyLower (s : String) : String :=
  String.mk (s.data.map pyCharLower)

/-- Parse a non-empty all-digit character list as a natural number
(accumulator form), as Python `int()` does for the digit part. -/
def parseDigitsAux (acc : Nat) : List Char → Option Nat
  | [] => some acc
  | c :: cs =>
      if c.isDigit then parseDigitsAux (acc * 10 + (c.toNat - 48)) cs
      else none

/-- Parse a non-empty digit string into a natural number; `none` on an
empty list or any non-digit character. -/
def parseDigits : List Char → Option Nat
  | [] => none
  | cs => parseDigitsAux 0 cs

/-- Python `int(s)` on a character list: strip surrounding whitespace,
optional sign, then a non-empty digit run; `none` models the
`ValueError` path. -/
def pyParseIntChars (cs : List Char) : Option Int :=
  match pyStripChars cs with
  | [] => none
  | c :: rest =>
      if c = '-' then (parseDigits rest).map (fun n => -(n : Int))
      else if c = '+' then (parseDigits rest).map (fun n => (n : Int))
      else (parseDigits (c :: rest)).map (fun n => (n : Int))

/-- Python `int(s)` on a string. -/
def pyParseInt (s : String) : Option Int :=
  pyParseIntChars s.data

/-- Uptime rendering from a total duration in seconds, exactly the
`divmod` arithmetic of `get_service_uptime` / `check_process`: Python's
`timedelta` keeps `days` and a seconds-in-day remainder, then
`hours, remainder = divmod(seconds, 3600)`, `minutes, _ = divmod(remainder, 60)`,
and the record renders `"{days}d {hours}h"`, `"{hours}h {minutes}m"`, or
`"{minutes}m"` by the first true of `days > 0`, `hours > 0`. -/
def formatUptime (t : Nat) : String :=
  let days := t / 86400
  let secs := t % 86400
  let hours := secs / 3600
  let remainder := secs % 3600
  let minutes := remainder / 60
  if days > 0 then toString days ++ "d " ++ toString hours ++ "h"
  else if hours > 0 then toString hours ++ "h " ++ toString minutes ++ "m"
  else toString minutes ++ "m"

/-- Outcome of one `subprocess.run` call: captured stdout, or an
exception (timeout, missing binary, parse of a dead handle, ...). -/
inductive CmdResult where
  | ok (stdout : String)
  | fail
deriving DecidableEq

/-- Information the process table (psutil) returns for a live PID:
joined command line, CPU percentage, resident memory in bytes, and the
seconds elapsed since the process start time. -/
structure ProcInfo where
  cmdline : String
  cpu_percent : Rat
  rss : Nat
  uptimeSeconds : Nat
deriving DecidableEq

/-- Environment for one systemd-managed service at one tick: the results
of the `systemctl is-active`, `systemctl show --property=MainPID` and
`journalctl` invocations, the process table, and the already-parsed
`now - ActiveEnterTimestamp` duration (`none` when the `show` call
fails, prints an empty timestamp, or the timestamp does not parse). -/
structure SystemdEnv where
  isActive : CmdResult
  showMainPID : CmdResult
  journal : CmdResult
  uptimeSeconds : Option Nat
  procTable : Int → Option ProcInfo

/-- The per-service stats dictionary emitted through `status_updated`. -/
structure ServiceStats where
  status : String
  is_running : Bool
  pid : Option Int
  cpu_percent : Rat
  memory_mb : Rat
  uptime : String
deriving DecidableEq

/-- `ServiceMonitor.check_systemd_service`: stripped stdout of
`systemctl is-active`, or `"unknown"` when the call raises. -/
def check_systemd_service (env : SystemdEnv) : String :=
  match env.isActive with
  | .ok out => pyStrip out
  | .fail => "unknown"

/-- `ServiceMonitor.get_service_pid`: parse
`result.stdout.strip().split('=')[1]` as an int and return it when
strictly positive; every failure (call raised, missing `=` field,
non-integer text, non-positive PID) yields `none`. -/
def get_service_pid (env : SystemdEnv) : Option Int :=
  match env.showMainPID with
  | .fail => none
  | .ok out =>
      match (pySplitEq (pyStrip out).data).get? 1 with
      | none => none
      | some pidStr =>
          match pyParseIntChars pidStr with
          | none => none
          | some pid => if pid > 0 then some pid else none

/-- `ServiceMonitor.get_service_uptime`: format the parsed activation
age, `"N/A"` on any failure. -/
def get_service_uptime (env : SystemdEnv) : String :=
  match env.uptimeSeconds with
  | some t => formatUptime t
  | none => "N/A"

/-- `ServiceMonitor.get_systemd_logs`: journal stdout, or the error
string when the call raises. -/
def get_systemd_logs (env : SystemdEnv) : String :=
  match env.journal with
  | .ok out => out
  | .fail => "Could not fetch logs\n"

/-- One iteration of the systemd branch of `ServiceMonitor.run` for a
single service: compute status and PID, build the stats record, decide
the edge-triggered log fetch
(`status == "active" and previous_status.get(service) != "active"`),
attach process metrics when a PID resolved and the process is still in
the table, and record the new `previous_status` entry. Returns
(emitted stats, whether a log fetch was emitted, new previous status). -/
def systemdServiceTick (env : SystemdEnv) (prev : Option String) :
    ServiceStats × Bool × Option String :=
  let status := check_systemd_service env
  let pid := get_service_pid env
  let stats0 : ServiceStats :=
    { status := status
      is_running := status = "active"
      pid := pid
      cpu_percent := 0
      memory_mb := 0
      uptime := if status = "active" then get_service_uptime env else "N/A" }
  let fetched : Bool := status = "active" ∧ prev ≠ some "active"
  let stats :=
    match pid with
    | none => stats0
    | some p =>
        match env.procTable p with
        | none => stats0
        | some info =>
            { stats0 with
                cpu_percent := info.cpu_percent
                memory_mb := (info.rss : Rat) / 1048576 }
  (stats, fetched, some status)

/-- The status string the monitor observes for a service at one tick. -/
def observedStatus (env : SystemdEnv) : String :=
  check_systemd_service env

/-- Cumulative number of log fetches emitted for one service across a
sequence of ticks, threading `previous_status` exactly as the loop
does. -/
def fetchCountFrom : List SystemdEnv → Option String → Nat
  | [], _ => 0
  | e :: rest, prev =>
      let r := systemdServiceTick e prev
      (if r.2.1 then 1 else 0) + fetchCountFrom rest r.2.2

/-- Number of non-active→active edges strictly inside a status sequence
whose first element followed `prevStatus` (spec-side count). -/
def edgeCountAux (prevStatus : String) : List String → Nat
  | [] => 0
  | s :: rest =>
      (if s = "active" ∧ prevStatus ≠ "active" then 1 else 0) + edgeCountAux s rest

/-- Spec-side count of non-active→active edges in a status sequence,
where the (absent) state before the first tick counts as not active. -/
def edgeCount : List String → Nat
  | [] => 0
  | s :: rest => (if s = "active" then 1 else 0) + edgeCountAux s rest

/-- One row of `psutil.net_connections()`: local port, connection
status, and owning PID (psutil reports `None` when unknown). -/
structure Listener where
  port : Nat
  connStatus : String
  pid : Option Int

/-- Environment for `check_process`: whether the listener enumeration
itself raises, the enumerated listeners, the process table, and the
monitoring process's own process information — `psutil.Process(None)`
does not raise but wraps the current process (`os.getpid()`), so a
listener psutil could not attribute to a PID is checked against the
dashboard's own command line. -/
structure ProcEnv where
  netFail : Bool
  connections : List Listener
  procTable : Int → Option ProcInfo
  selfProc : ProcInfo

/-- The stats dictionary `check_process` starts from (and returns when
nothing matched). -/
def defaultProcStats : ServiceStats :=
  { status := "inactive", is_running := false, pid := none
    cpu_percent := 0, memory_mb := 0, uptime := "N/A" }

/-- Does one enumerated connection make `check_process` classify the
service: right port, `LISTEN` state, the configured substring inside
the lowercased command line of `psutil.Process(conn.pid)` — which is
the owning process when the connection carries a PID (a vanished
process raises and the row is skipped), and the dashboard's own
process when psutil reported the PID as `None`. On a match the record
carries `conn.pid` itself (so `None` for an unattributed listener),
paired with the process the command line came from. -/
def matchListener (procTable : Int → Option ProcInfo) (selfProc : ProcInfo)
    (port : Nat) (fil : String) (conn : Listener) :
    Option (Option Int × ProcInfo) :=
  if conn.port = port ∧ conn.connStatus = "LISTEN" then
    match conn.pid with
    | none =>
        if strHasSub (pyLower fil) (pyLower selfProc.cmdline) then
          some (none, selfProc)
        else none
    | some p =>
        match procTable p with
        | none => none
        | some info =>
            if strHasSub (pyLower fil) (pyLower info.cmdline) then
              some (some p, info)
            else none
  else none

/-- The property `matchListener` decides, spec-side: the connection is
a `LISTEN` socket on the configured port and the command line the code
inspects for it — its attributed owner's, or the monitor's own when the
PID is unattributed — contains the configured substring. -/
def connAccepts (procTable : Int → Option ProcInfo) (selfProc : ProcInfo)
    (port : Nat) (fil : String) (c : Listener) : Prop :=
  c.port = port ∧ c.connStatus = "LISTEN" ∧
    ((∃ p info, c.pid = some p ∧ procTable p = some info ∧
        strHasSub (pyLower fil) (pyLower info.cmdline) = true) ∨
      (c.pid = none ∧ strHasSub (pyLower fil) (pyLower selfProc.cmdline) = true))

/-- First connection accepted by `matchListener`, mirroring the `for`
loop with its `break` on the first match. -/
def findMatch (procTable : Int → Option ProcInfo) (selfProc : ProcInfo)
    (port : Nat) (fil : String) : List Listener → Option (Option Int × ProcInfo)
  | [] => none
  | c :: rest =>
      match matchListener procTable selfProc port fil c with
      | some r => some r
      | none => findMatch procTable selfProc port fil rest

/-- `ServiceMonitor.check_process`: scan listeners for the configured
port, accept the first whose inspected command line contains the
configured substring (case-insensitively), and fill the stats record
with `conn.pid` and that process's metrics; otherwise the default
`inactive` record. -/
def check_process (env : ProcEnv) (port : Nat) (fil : String) : ServiceStats :=
  if env.netFail then defaultProcStats
  else
    match findMatch env.procTable env.selfProc port fil env.connections with
    | none => defaultProcStats
    | some (cp, info) =>
        { status := "active", is_running := true, pid := cp
          cpu_percent := info.cpu_percent
          memory_mb := (info.rss : Rat) / 1048576
          uptime := formatUptime info.uptimeSeconds }

/-- The four tracked systemd-managed units, in loop order. -/
def trackedSystemd : List String :=
  ["mongodb", "postgresql", "meilisearch", "ollama"]

/-- The two tracked externally-launched processes:
(name, port, command-line substring). -/
def trackedManual : List (String × Nat × String) :=
  [("librechat", 3080, "node"), ("rag_api", 8000, "uvicorn")]

/-- Environment for one full reconciliation tick: a per-unit systemd
environment plus the listener-enumeration environment. -/
structure TickEnv where
  systemd : String → SystemdEnv
  net : ProcEnv

/-- One full pass of the `while` body of `ServiceMonitor.run`: every
systemd unit in order (threading `previous_status`), then the two
manual processes. Returns the emitted (name, stats) pairs and the new
`previous_status` map. -/
def runTick (env : TickEnv) (prev : String → Option String) :
    List (String × ServiceStats) × (String → Option String) :=
  let step := fun (acc : List (String × ServiceStats) × (String → Option String))
      (s : String) =>
    let r := systemdServiceTick (env.systemd s) (acc.2 s)
    (acc.1 ++ [(s, r.1)], fun s2 => if s2 = s then r.2.2 else acc.2 s2)
  let a := trackedSystemd.foldl step ([], prev)
  let manual := trackedManual.map (fun t => (t.1, check_process env.net t.2.1 t.2.2))
  (a.1 ++ manual, a.2)

/-- Both external queries for a unit raised (timeout / failure). -/
def systemdEnvFails (env : SystemdEnv) : Prop :=
  env.isActive = .fail ∧ env.showMainPID = .fail

/-- The record a unit degrades to when its queries fail: status
`unknown`, not running, no PID, zeroed metrics, no uptime. -/
def unknownZeroStats : ServiceStats :=
  { status := "unknown", is_running := false, pid := none
    cpu_percent := 0, memory_mb := 0, uptime := "N/A" }

/-- `collections.deque(maxlen=m).append`: append on the right and, when
over capacity, drop from the left until back at capacity. -/
def dequeAppend (maxlen : Nat) (q : List α) (x : α) : List α :=
  let q2 := q ++ [x]
  if maxlen < q2.length then q2.drop (q2.length - maxlen) else q2

/-- `SystemMonitor.history_size`. -/
def history_size : Nat := 60

/-- The two rolling histories owned by `SystemMonitor`. -/
structure SystemMonitorState where
  cpu_history : List Rat
  ram_history : List Rat
deriving DecidableEq

/-- Histories at thread start: both deques empty. -/
def initialMonitorState : SystemMonitorState :=
  { cpu_history := [], ram_history := [] }

/-- One iteration of `SystemMonitor.run`: append the sampled CPU and
RAM percentages to their bounded deques. -/
def systemMonitorTick (st : SystemMonitorState) (cpu ram : Rat) :
    SystemMonitorState :=
  { cpu_history := dequeAppend history_size st.cpu_history cpu
    ram_history := dequeAppend history_size st.ram_history ram }

/-- State after a sequence of (cpu, ram) samples. -/
def runSamples (samples : List (Rat × Rat)) : SystemMonitorState :=
  samples.foldl (fun st p => systemMonitorTick st p.1 p.2) initialMonitorState

/-- Observable events of a `ProcessRunner` worker and of
`stop_process`. -/
inductive PEvent where
  | started
  | outputLine (line : String)
  | finished (code : Int)
  | terminateReq
  | waitGrace (seconds : Nat)
  | killForce
deriving DecidableEq

/-- Abstract outcome of the `Popen` launch inside `ProcessRunner.run`:
the spawn raised, or the child ran, produced its output lines, and
exited with a return code. -/
inductive LaunchOutcome where
  | failure
  | ran (lines : List String) (code : Int)

/-- Event trace of `ProcessRunner.run`: on a failed launch the error
line and `process_finished(-1)`; otherwise `process_started`, one
`output_ready` per line, then `process_finished(returncode)` after
`wait()`. -/
def processRunnerRun : LaunchOutcome → List PEvent
  | .failure => [.outputLine "Error\n", .finished (-1)]
  | .ran lines code => .started :: (lines.map PEvent.outputLine ++ [.finished code])

/-- Number of `process_finished` emissions in a trace. -/
def countFinished (es : List PEvent) : Nat :=
  es.countP (fun e => match e with | .finished _ => true | _ => false)

/-- Event trace of `ProcessRunner.stop_process`: when a process handle
exists, `terminate()`, then `wait(timeout=5)`, then `kill()` only when
the wait raised `TimeoutExpired` (the child had not exited within the
grace period). -/
def stop_process (hasProcess : Bool) (exitedWithinGrace : Bool) : List PEvent :=
  if hasProcess then
    .terminateReq :: .waitGrace 5 ::
      (if exitedWithinGrace then [] else [.killForce])
  else []

/-- How an external query of the reconciler is issued: a
`subprocess.run` with an explicit `timeout=` keyword, or an in-process
library call with no timeout parameter. -/
inductive QueryKind where
  | subprocessRun (timeoutSeconds : Nat)
  | libraryCall
deriving DecidableEq

/-- One external query issued by `ServiceMonitor` during a tick. -/
structure ExternalQuery where
  description : String
  kind : QueryKind
deriving DecidableEq

/-- The external queries the reconciliation loop can issue, with the
timeouts the source passes: `systemctl` calls carry `timeout=2`,
`journalctl` carries `timeout=5`, and the listener enumeration is the
library call `psutil.net_connections()` with no timeout argument. -/
def reconcilerQueries : List ExternalQuery :=
  [ { description := "systemctl is-active", kind := .subprocessRun 2 },
    { description := "systemctl show MainPID", kind := .subprocessRun 2 },
    { description := "systemctl show ActiveEnterTimestamp", kind := .subprocessRun 2 },
    { description := "journalctl -n 10", kind := .subprocessRun 5 },
    { description := "psutil net_connections", kind := .libraryCall } ]

/-- A query carries an individual time bound whose ceiling lies between
2 and 10 seconds. -/
def hasBoundedTimeout (q : ExternalQuery) : Prop :=
  ∃ t, q.kind = .subprocessRun t ∧ 2 ≤ t ∧ t ≤ 10

/-- Concrete environment: `systemctl is-active` prints `active`, all
other queries fail. -/
def activeEnv : SystemdEnv :=
  { isActive := .ok "active", showMainPID := .fail, journal := .fail
    uptimeSeconds := none, procTable := fun _ => none }

/-- Concrete environment: every external query raises. -/
def failEnv : SystemdEnv :=
  { isActive := .fail, showMainPID := .fail, journal := .fail
    uptimeSeconds := none, procTable := fun _ => none }

/-- Concrete environment: the `show` query prints a parsable MainPID. -/
def mainPidEnvOk : SystemdEnv :=
  { isActive := .ok "active", showMainPID := .ok "MainPID=1234\n", journal := .ok ""
    uptimeSeconds := none, procTable := fun _ => none }

/-- Concrete environment: active unit with MainPID 42 whose process has
vanished from the process table. -/
def activePidEnv : SystemdEnv :=
  { isActive := .ok "active", showMainPID := .ok "MainPID=42", journal := .ok ""
    uptimeSeconds := none, procTable := fun _ => none }

/-- Concrete process info for the monitoring process itself, with a
command line containing neither configured substring. -/
def dashSelfInfo : ProcInfo :=
  { cmdline := "python3 librechat-dashboard.py", cpu_percent := 0, rss := 0
    uptimeSeconds := 0 }

/-- Concrete tick environment in which every unit's queries fail and
the listener enumeration raises. -/
def failTickEnv : TickEnv :=
  { systemd := fun _ => failEnv
    net := { netFail := true, connections := [], procTable := fun _ => none
             selfProc := dashSelfInfo } }

/-- Concrete process info: a uvicorn worker. -/
def uvicornInfo : ProcInfo :=
  { cmdline := "python -m uvicorn main:app", cpu_percent := 0, rss := 0
    uptimeSeconds := 0 }

/-- Concrete listener environment: PID 77 owns a LISTEN socket on port
8000 and its command line contains `uvicorn`. -/
def ragEnv : ProcEnv :=
  { netFail := false
    connections := [{ port := 8000, connStatus := "LISTEN", pid := some 77 }]
    procTable := fun p => if p = 77 then some uvicornInfo else none
    selfProc := dashSelfInfo }

/-- Concrete listener environment for the C2 counterexample: the only
LISTEN socket on port 8000 has no attributable owning PID (psutil
reports `pid=None` for sockets of other users when not root), and the
monitoring process itself happens to carry `uvicorn` in its command
line. -/
def orphanEnv : ProcEnv :=
  { netFail := false
    connections := [{ port := 8000, connStatus := "LISTEN", pid := none }]
    procTable := fun _ => none
    selfProc := { cmdline := "/usr/bin/python3 /opt/uvicorn-tools/librechat-dashboard.py"
                  cpu_percent := 0, rss := 0, uptimeSeconds := 0 } }

/-! ## Helper lemmas -/

theorem dequeAppend_length_le {α : Type} (m : Nat) (q : List α) (x : α)
    (h : q.length ≤ m) : (dequeAppend m q x).length ≤ m := by
  unfold dequeAppend
  by_cases hlt : m < (q ++ [x]).length
  · rw [if_pos hlt]
    simp only [List.length_drop]
    omega
  · rw [if_neg hlt]
    omega

theorem runSamples_inv (samples : List (Rat × Rat)) :
    ∀ st : SystemMonitorState, st.cpu_history.length ≤ 60 →
      st.ram_history.length ≤ 60 →
      (samples.foldl (fun st p => systemMonitorTick st p.1 p.2) st).cpu_history.length ≤ 60 ∧
      (samples.foldl (fun st p => systemMonitorTick st p.1 p.2) st).ram_history.length ≤ 60 := by
  induction samples with
  | nil => intro st h1 h2; exact ⟨h1, h2⟩
  | cons p rest ih =>
      intro st h1 h2
      simp only [List.foldl_cons]
      exact ih _ (dequeAppend_length_le _ _ _ h1) (dequeAppend_length_le _ _ _ h2)

theorem dequeAppend_at_capacity {α : Type} (q : List α) (x : α)
    (h : q.length = 60) : dequeAppend 60 q x = q.drop 1 ++ [x] := by
  unfold dequeAppend
  have hlt : 60 < (q ++ [x]).length := by simp [h]
  rw [if_pos hlt]
  have hd : (q ++ [x]).length - 60 = 1 := by simp [h]
  rw [hd, List.drop_append_of_le_length (by omega)]

/-! ## Claim theorems -/

/-- C5: across every sequence of sampling ticks the CPU and RAM
histories hold at most 60 samples, and an append to a history at
capacity evicts exactly the oldest sample, keeping the remaining
samples in arrival order followed by the new one. -/
theorem history_capacity_fifo :
    (∀ samples : List (Rat × Rat),
        (runSamples samples).cpu_history.length ≤ 60 ∧
        (runSamples samples).ram_history.length ≤ 60) ∧
    (∀ (q : List Rat) (x : Rat), q.length = 60 →
        dequeAppend history_size q x = q.drop 1 ++ [x]) := by
  constructor
  · intro samples
    have h := runSamples_inv samples initialMonitorState
      (by simp [initialMonitorState]) (by simp [initialMonitorState])
    simpa [runSamples] using h
  · intro q x h
    simpa [history_size] using dequeAppend_at_capacity q x h

/-- Witness for C5 at a concrete full history. -/
theorem history_capacity_fifo_witness :
    dequeAppend history_size (List.replicate 60 (0 : Rat)) 1 =
      (List.replicate 60 (0 : Rat)).drop 1 ++ [1] :=
  history_capacity_fifo.2 (List.replicate 60 (0 : Rat)) 1 (by simp)

/-- C6: the uptime formatter renders `"{days}d {hours}h"` when the
duration has a positive day count, `"{hours}h {minutes}m"` when it has
no days but a positive hour count, and `"{minutes}m"` otherwise; in
particular 90 minutes gives `"1h 30m"`, 25 hours gives `"1d 1h"`, and
45 seconds gives `"0m"`. -/
theorem uptime_two_largest_units :
    (∀ t : Nat, 86400 ≤ t →
        formatUptime t =
          toString (t / 86400) ++ "d " ++ toString (t % 86400 / 3600) ++ "h") ∧
    (∀ t : Nat, t < 86400 → 3600 ≤ t →
        formatUptime t =
          toString (t / 3600) ++ "h " ++ toString (t % 3600 / 60) ++ "m") ∧
    (∀ t : Nat, t < 3600 → formatUptime t = toString (t / 60) ++ "m") ∧
    formatUptime 5400 = "1h 30m" ∧ formatUptime 90000 = "1d 1h" ∧
    formatUptime 45 = "0m" := by
  refine ⟨?_, ?_, ?_, ?_, ?_, ?_⟩
  · intro t ht
    simp only [formatUptime]
    rw [if_pos (by omega : t / 86400 > 0)]
  · intro t h1 h2
    simp only [formatUptime]
    rw [if_neg (by omega : ¬ t / 86400 > 0),
      if_pos (by omega : t % 86400 / 3600 > 0)]
    have e1 : t % 86400 = t := by omega
    rw [e1]
  · intro t h1
    simp only [formatUptime]
    rw [if_neg (by omega : ¬ t / 86400 > 0),
      if_neg (by omega : ¬ t % 86400 / 3600 > 0)]
    have e1 : t % 86400 = t := by omega
    rw [e1]
    have e2 : t % 3600 = t := by omega
    rw [e2]
  · rfl
  · rfl
  · rfl

/-- Witness for C6 at the concrete 25-hour duration. -/
theorem uptime_two_largest_units_witness :
    formatUptime 90000 =
      toString (90000 / 86400) ++ "d " ++ toString (90000 % 86400 / 3600) ++ "h" :=
  uptime_two_largest_units.1 90000 (by omega)

/-- C7: stopping a running child issues the polite `terminate`, then a
5-second bounded `wait`, and issues `kill` exactly when the child has
not exited within the grace period; the worker's trace carries exactly
one `process_finished` emission on every launch outcome. -/
theorem stop_graceful_then_kill :
    (∀ o : LaunchOutcome, countFinished (processRunnerRun o) = 1) ∧
    (∀ e : Bool,
        stop_process true e =
          PEvent.terminateReq :: PEvent.waitGrace 5 ::
            (if e then [] else [PEvent.killForce])) ∧
    (∀ e : Bool, (PEvent.killForce ∈ stop_process true e) ↔ e = false) := by
  refine ⟨?_, ?_, ?_⟩
  · intro o
    cases o with
    | failure => rfl
    | ran lines code =>
        simp [processRunnerRun, countFinished, List.countP_cons,
          List.countP_append, List.countP_map, Function.comp]
  · intro e
    rfl
  · intro e
    cases e <;> simp [stop_process]

/-- C8 counterexample: not every external query of the reconciler
carries a 2–10 second time bound — the listener enumeration is a
psutil library call with no timeout argument. -/
theorem reconciler_timeout_counterexample :
    ¬ (∀ q ∈ reconcilerQueries, hasBoundedTimeout q) := by
  intro h
  obtain ⟨t, ht, -⟩ :=
    h { description := "psutil net_connections", kind := QueryKind.libraryCall }
      (by simp [reconcilerQueries])
  exact QueryKind.noConfusion ht

/-- C8 amended: every subprocess-issued query of the reconciler
(`systemctl` calls and the `journalctl` read) carries an individual
timeout between 2 and 10 seconds, while the network-listener
enumeration is an in-process library call with no explicit bound. -/
theorem reconciler_subprocess_timeouts :
    (∀ q ∈ reconcilerQueries, ∀ t : Nat, q.kind = QueryKind.subprocessRun t →
        2 ≤ t ∧ t ≤ 10) ∧
    ExternalQuery.mk "psutil net_connections" QueryKind.libraryCall ∈
      reconcilerQueries := by
  constructor
  · intro q hq t ht
    simp only [reconcilerQueries, List.mem_cons, List.not_mem_nil, or_false] at hq
    rcases hq with rfl | rfl | rfl | rfl | rfl <;>
      first
        | (injection ht with h2; subst h2; decide)
        | exact QueryKind.noConfusion ht
  · simp [reconcilerQueries]

/-- Witness for the amended C8 at the `is-active` query. -/
theorem reconciler_subprocess_timeouts_witness :
    2 ≤ 2 ∧ (2 : Nat) ≤ 10 :=
  reconciler_subprocess_timeouts.1
    (ExternalQuery.mk "systemctl is-active" (QueryKind.subprocessRun 2))
    (by simp [reconcilerQueries]) 2 rfl

/-- C10: the PID lookup returns the integer PID exactly when the
`MainPID=` field of the `show` reply parses as a strictly positive
integer; a failed call, an unparsable reply, or a non-positive MainPID
all yield `none`. -/
theorem pid_lookup_positive :
    (∀ (env : SystemdEnv) (p : Int),
        get_service_pid env = some p ↔
          ∃ out s, env.showMainPID = CmdResult.ok out ∧
            (pySplitEq (pyStrip out).data).get? 1 = some s ∧
            pyParseIntChars s = some p ∧ 0 < p) ∧
    (∀ env : SystemdEnv, env.showMainPID = CmdResult.fail →
        get_service_pid env = none) := by
  constructor
  · intro env p
    constructor
    · intro h
      simp only [get_service_pid] at h
      split at h
      · exact absurd h (by simp)
      · next out heq =>
          split at h
          · exact absurd h (by simp)
          · next s heq2 =>
              split at h
              · exact absurd h (by simp)
              · next pid heq3 =>
                  by_cases hpos : pid > 0
                  · rw [if_pos hpos] at h
                    obtain rfl : pid = p := Option.some.inj h
                    exact ⟨out, s, heq, heq2, heq3, hpos⟩
                  · rw [if_neg hpos] at h
                    exact absurd h (by simp)
    · rintro ⟨out, s, hs, hg, hp, hpos⟩
      simp only [get_service_pid, hs, hg, hp]
      rw [if_pos hpos]
  · intro env h
    simp only [get_service_pid, h]

/-- Witness for C10 at a concrete parsable `show` reply. -/
theorem pid_lookup_positive_witness :
    get_service_pid mainPidEnvOk = some 1234 :=
  (pid_lookup_positive.1 mainPidEnvOk 1234).mpr
    ⟨"MainPID=1234\n", "1234".data, rfl, by decide, by decide, by decide⟩

theorem tick_fetched (env : SystemdEnv) (prev : Option String) :
    (systemdServiceTick env prev).2.1 =
      decide (check_systemd_service env = "active" ∧ prev ≠ some "active") := rfl

theorem tick_prevOut (env : SystemdEnv) (prev : Option String) :
    (systemdServiceTick env prev).2.2 = some (check_systemd_service env) := rfl

theorem tick_stats_pid (env : SystemdEnv) (prev : Option String) :
    (systemdServiceTick env prev).1.pid = get_service_pid env := by
  simp only [systemdServiceTick]
  cases hp : get_service_pid env with
  | none => simp [hp]
  | some p => cases hpt : env.procTable p <;> simp [hp, hpt]

theorem tick_metrics_none (env : SystemdEnv) (prev : Option String) (p : Int)
    (hp : get_service_pid env = some p) (hnone : env.procTable p = none) :
    (systemdServiceTick env prev).1.cpu_percent = 0 ∧
    (systemdServiceTick env prev).1.memory_mb = 0 := by
  simp [systemdServiceTick, hp, hnone]

theorem fetchCount_some (envs : List SystemdEnv) : ∀ s : String,
    fetchCountFrom envs (some s) = edgeCountAux s (envs.map observedStatus) := by
  induction envs with
  | nil => intro s; rfl
  | cons e rest ih =>
      intro s
      simp only [fetchCountFrom, List.map_cons, edgeCountAux]
      rw [tick_fetched, tick_prevOut, ih]
      simp [observedStatus]

/-- C1: across any sequence of ticks the cumulative number of journal
log fetches for a service equals the number of non-active→active edges
of the observed status sequence (the state before the first tick
counting as not active); a tick fetches exactly when it observes
`active` after a recorded status other than `active`, and a repeated
`active` tick never fetches. -/
theorem edge_triggered_fetch_count :
    (∀ envs : List SystemdEnv,
        fetchCountFrom envs none = edgeCount (envs.map observedStatus)) ∧
    (∀ (env : SystemdEnv) (prev : Option String),
        observedStatus env = "active" → prev ≠ some "active" →
        (systemdServiceTick env prev).2.1 = true) ∧
    (∀ env : SystemdEnv, (systemdServiceTick env (some "active")).2.1 = false) := by
  refine ⟨?_, ?_, ?_⟩
  · intro envs
    cases envs with
    | nil => rfl
    | cons e rest =>
        simp only [fetchCountFrom, List.map_cons, edgeCount]
        rw [tick_fetched, tick_prevOut, fetchCount_some]
        simp [observedStatus]
  · intro env prev h1 h2
    rw [tick_fetched]
    simp only [observedStatus] at h1
    simp [h1, h2]
  · intro env
    rw [tick_fetched]
    simp

/-- Witness for C1: a tick observing `active` after `inactive`
fetches. -/
theorem edge_triggered_fetch_count_witness :
    (systemdServiceTick activeEnv (some "inactive")).2.1 = true :=
  edge_triggered_fetch_count.2.1 activeEnv (some "inactive") (by decide) (by decide)

/-- C9: the log fetch fires exactly when the tick observes `active` and
the recorded previous status is anything other than `active` — in
particular after `unknown`, `failed`, `inactive`, and on the very first
tick, when no previous status is recorded at all. -/
theorem first_tick_fetch :
    (∀ (env : SystemdEnv) (prev : Option String),
        (systemdServiceTick env prev).2.1 = true ↔
          (observedStatus env = "active" ∧ prev ≠ some "active")) ∧
    (∀ env : SystemdEnv, observedStatus env = "active" →
        (systemdServiceTick env none).2.1 = true ∧
        (systemdServiceTick env (some "unknown")).2.1 = true ∧
        (systemdServiceTick env (some "failed")).2.1 = true ∧
        (systemdServiceTick env (some "inactive")).2.1 = true) := by
  have hf : ∀ (env : SystemdEnv) (prev : Option String),
      (systemdServiceTick env prev).2.1 = true ↔
        (observedStatus env = "active" ∧ prev ≠ some "active") := by
    intro env prev
    rw [tick_fetched]
    simp [observedStatus]
  refine ⟨hf, ?_⟩
  intro env h
  refine ⟨?_, ?_, ?_, ?_⟩ <;> rw [hf] <;> exact ⟨h, by decide⟩

/-- Witness for C9: on the first tick after startup an already-active
unit triggers the fetch (and likewise after unknown / failed /
inactive). -/
theorem first_tick_fetch_witness :
    (systemdServiceTick activeEnv none).2.1 = true ∧
    (systemdServiceTick activeEnv (some "unknown")).2.1 = true ∧
    (systemdServiceTick activeEnv (some "failed")).2.1 = true ∧
    (systemdServiceTick activeEnv (some "inactive")).2.1 = true :=
  first_tick_fetch.2 activeEnv (by decide)

/-- C4: an emitted record's pid field is exactly the service manager's
PID answer, so whenever the manager reports a positive MainPID (the
process is reachable) an `active` record carries a non-null pid; when
the process vanishes from the process table between the status check
and the metric read the record still comes out, with zeroed metrics;
and the emitted record does not depend on the recorded previous status,
so the next tick's record reflects the next tick's environment alone. -/
theorem active_record_pid :
    ∀ (env : SystemdEnv) (prev : Option String),
      ((systemdServiceTick env prev).1.pid = get_service_pid env) ∧
      (∀ p : Int, get_service_pid env = some p →
        (systemdServiceTick env prev).1.pid = some p) ∧
      (∀ p : Int, get_service_pid env = some p → env.procTable p = none →
        (systemdServiceTick env prev).1.cpu_percent = 0 ∧
        (systemdServiceTick env prev).1.memory_mb = 0) ∧
      (∀ prev2 : Option String,
        (systemdServiceTick env prev2).1 = (systemdServiceTick env prev).1) := by
  intro env prev
  refine ⟨tick_stats_pid env prev, ?_, ?_, ?_⟩
  · intro p hp
    rw [tick_stats_pid, hp]
  · intro p hp hnone
    exact tick_metrics_none env prev p hp hnone
  · intro prev2
    rfl

/-- Witness for C4: a record for an active unit with MainPID 42 whose
process is gone still carries the pid. -/
theorem active_record_pid_witness :
    (systemdServiceTick activePidEnv none).1.pid = some 42 :=
  (active_record_pid activePidEnv none).2.1 42 (by decide)

theorem tick_fail_stats (env : SystemdEnv) (prev : Option String)
    (h : systemdEnvFails env) :
    (systemdServiceTick env prev).1 = unknownZeroStats := by
  obtain ⟨h1, h2⟩ := h
  simp [systemdServiceTick, check_systemd_service, get_service_pid, h1, h2,
    unknownZeroStats]

theorem runTick_eq (env : TickEnv) (prev : String → Option String) :
    (runTick env prev).1 =
      [("mongodb", (systemdServiceTick (env.systemd "mongodb") (prev "mongodb")).1),
       ("postgresql",
         (systemdServiceTick (env.systemd "postgresql") (prev "postgresql")).1),
       ("meilisearch",
         (systemdServiceTick (env.systemd "meilisearch") (prev "meilisearch")).1),
       ("ollama", (systemdServiceTick (env.systemd "ollama") (prev "ollama")).1),
       ("librechat", check_process env.net 3080 "node"),
       ("rag_api", check_process env.net 8000 "uvicorn")] := by
  simp [runTick, trackedSystemd, trackedManual]

/-- C3: one reconciliation tick emits a record for all six tracked
services in order, each systemd record is a function of that service's
own queries and recorded status alone (so one service's failure cannot
block the others), and a service whose queries fail resolves to the
`unknown` record with zeroed metrics. -/
theorem failure_containment :
    ∀ (env : TickEnv) (prev : String → Option String),
      ((runTick env prev).1.map Prod.fst =
        ["mongodb", "postgresql", "meilisearch", "ollama", "librechat",
          "rag_api"]) ∧
      (∀ s ∈ trackedSystemd,
        (s, (systemdServiceTick (env.systemd s) (prev s)).1) ∈
          (runTick env prev).1) ∧
      (∀ s ∈ trackedSystemd, systemdEnvFails (env.systemd s) →
        (s, unknownZeroStats) ∈ (runTick env prev).1) := by
  intro env prev
  have hmem : ∀ s ∈ trackedSystemd,
      (s, (systemdServiceTick (env.systemd s) (prev s)).1) ∈
        (runTick env prev).1 := by
    intro s hs
    rw [runTick_eq]
    simp only [trackedSystemd, List.mem_cons, List.not_mem_nil, or_false] at hs
    rcases hs with rfl | rfl | rfl | rfl <;> simp
  refine ⟨?_, hmem, ?_⟩
  · rw [runTick_eq]
    rfl
  · intro s hs hfail
    have h2 := hmem s hs
    rwa [tick_fail_stats (env.systemd s) (prev s) hfail] at h2

/-- Witness for C3: in a tick where every query fails, `mongodb` is
still emitted, as the unknown/zeroed record. -/
theorem failure_containment_witness :
    ("mongodb", unknownZeroStats) ∈ (runTick failTickEnv (fun _ => none)).1 :=
  (failure_containment failTickEnv (fun _ => none)).2.2 "mongodb"
    (by simp [trackedSystemd]) ⟨rfl, rfl⟩


theorem matchListener_none_iff (pt : Int → Option ProcInfo) (sp : ProcInfo)
    (port : Nat) (fil : String) (c : Listener) :
    matchListener pt sp port fil c = none ↔ ¬ connAccepts pt sp port fil c := by
  unfold matchListener connAccepts
  split
  · next hcond =>
      cases hpid : c.pid with
      | none =>
          by_cases hsub : strHasSub (pyLower fil) (pyLower sp.cmdline) = true
          · simp [hcond, hpid, hsub]
          · simp [hcond, hpid, hsub]
      | some p =>
          cases hpt : pt p with
          | none => simp [hcond, hpid, hpt]
          | some info =>
              by_cases hsub : strHasSub (pyLower fil) (pyLower info.cmdline) = true
              · simp [hcond, hpid, hpt, hsub]
              · simp [hcond, hpid, hpt, hsub]
  · next hcond =>
      constructor
      · intro _ hx
        exact hcond ⟨hx.1, hx.2.1⟩
      · intro _
        rfl

theorem matchListener_some (pt : Int → Option ProcInfo) (sp : ProcInfo)
    (port : Nat) (fil : String) (c : Listener) (r : Option Int × ProcInfo)
    (h : matchListener pt sp port fil c = some r) :
    c.port = port ∧ c.connStatus = "LISTEN" ∧ c.pid = r.1 ∧
    strHasSub (pyLower fil) (pyLower r.2.cmdline) = true ∧
    ((∃ p, r.1 = some p ∧ pt p = some r.2) ∨ (r.1 = none ∧ r.2 = sp)) := by
  unfold matchListener at h
  split at h
  · next hcond =>
      cases hpid : c.pid with
      | none =>
          simp only [hpid] at h
          by_cases hsub : strHasSub (pyLower fil) (pyLower sp.cmdline) = true
          · rw [if_pos hsub] at h
            obtain rfl : ((none : Option Int), sp) = r := Option.some.inj h
            exact ⟨hcond.1, hcond.2, rfl, hsub, Or.inr ⟨rfl, rfl⟩⟩
          · rw [if_neg hsub] at h
            exact absurd h (by simp)
      | some p =>
          simp only [hpid] at h
          cases hpt : pt p with
          | none =>
              simp only [hpt] at h
              exact Option.noConfusion h
          | some info =>
              simp only [hpt] at h
              by_cases hsub : strHasSub (pyLower fil) (pyLower info.cmdline) = true
              · rw [if_pos hsub] at h
                obtain rfl : (some p, info) = r := Option.some.inj h
                exact ⟨hcond.1, hcond.2, rfl, hsub, Or.inl ⟨p, rfl, hpt⟩⟩
              · rw [if_neg hsub] at h
                exact absurd h (by simp)
  · exact absurd h (by simp)

theorem findMatch_none (pt : Int → Option ProcInfo) (sp : ProcInfo)
    (port : Nat) (fil : String) :
    ∀ cs : List Listener, findMatch pt sp port fil cs = none →
      ∀ c ∈ cs, matchListener pt sp port fil c = none := by
  intro cs
  induction cs with
  | nil => intro _ c hc; exact absurd hc (List.not_mem_nil c)
  | cons d rest ih =>
      intro h c hc
      unfold findMatch at h
      cases hm : matchListener pt sp port fil d with
      | some r =>
          simp only [hm] at h
          exact Option.noConfusion h
      | none =>
          simp only [hm] at h
          rcases List.mem_cons.mp hc with rfl | hc2
          · exact hm
          · exact ih h c hc2

theorem findMatch_some (pt : Int → Option ProcInfo) (sp : ProcInfo)
    (port : Nat) (fil : String) :
    ∀ (cs : List Listener) (r : Option Int × ProcInfo),
      findMatch pt sp port fil cs = some r →
      ∃ c ∈ cs, matchListener pt sp port fil c = some r := by
  intro cs
  induction cs with
  | nil => intro r h; exact absurd h (by simp [findMatch])
  | cons d rest ih =>
      intro r h
      unfold findMatch at h
      cases hm : matchListener pt sp port fil d with
      | some r2 =>
          simp only [hm] at h
          obtain rfl : r2 = r := Option.some.inj h
          exact ⟨d, List.mem_cons_self d rest, hm⟩
      | none =>
          simp only [hm] at h
          obtain ⟨c, hc, hmc⟩ := ih r h
          exact ⟨c, List.mem_cons_of_mem d hc, hmc⟩

/-- C2 counterexample: with the only LISTEN socket on port 8000
unattributed (`pid=None`) and the monitor's own command line containing
`uvicorn`, `check_process` classifies `rag_api` active — with a null
pid — although no enumerated listener on the port belongs to a process
whose command line contains the substring: `psutil.Process(None)` wraps
the dashboard's own process, not the listener's owner. -/
theorem port_cmdline_match_counterexample :
    (check_process orphanEnv 8000 "uvicorn").status = "active" ∧
    (check_process orphanEnv 8000 "uvicorn").pid = none ∧
    ¬ (∃ c ∈ orphanEnv.connections, c.port = 8000 ∧ c.connStatus = "LISTEN" ∧
        ∃ p info, c.pid = some p ∧ orphanEnv.procTable p = some info ∧
          strHasSub (pyLower "uvicorn") (pyLower info.cmdline) = true) := by
  refine ⟨by decide, by decide, ?_⟩
  rintro ⟨c, hc, -, -, p, info, hpid, -, -⟩
  simp only [orphanEnv, List.mem_singleton] at hc
  subst hc
  exact Option.noConfusion hpid

/-- C2 amended: when every LISTEN connection on the configured port
carries an attributable owning PID, `check_process` classifies the
service active exactly when some such listener's owner has the
configured substring in its command line (case-insensitively); and
unconditionally, any non-null PID the record carries is the owner of a
matching listener — so a PID-attributed listener whose owner's command
line lacks the substring is never reported as the service. (A listener
psutil cannot attribute is instead compared against the monitoring
process's own command line and, on a match, yields an active record
with a null pid.) -/
theorem port_cmdline_match_amended :
    ∀ (env : ProcEnv) (port : Nat) (fil : String), env.netFail = false →
      ((∀ c ∈ env.connections, c.port = port → c.connStatus = "LISTEN" →
          c.pid ≠ none) →
        (((check_process env port fil).status = "active") ↔
          ∃ c ∈ env.connections, c.port = port ∧ c.connStatus = "LISTEN" ∧
            ∃ p info, c.pid = some p ∧ env.procTable p = some info ∧
              strHasSub (pyLower fil) (pyLower info.cmdline) = true)) ∧
      (∀ p : Int, (check_process env port fil).pid = some p →
        ∃ c ∈ env.connections, c.pid = some p ∧ c.port = port ∧
          c.connStatus = "LISTEN" ∧
          ∃ info, env.procTable p = some info ∧
            strHasSub (pyLower fil) (pyLower info.cmdline) = true) := by
  intro env port fil hnf
  cases hfm : findMatch env.procTable env.selfProc port fil env.connections with
  | none =>
      have hcp : check_process env port fil = defaultProcStats := by
        simp [check_process, hnf, hfm]
      constructor
      · intro _
        rw [hcp]
        constructor
        · intro h
          exact absurd h (by simp [defaultProcStats])
        · rintro ⟨c, hc, hport, hlisten, p, info, hpid, hpt, hsub⟩
          have hnone := findMatch_none _ _ _ _ _ hfm c hc
          rw [matchListener_none_iff] at hnone
          exact absurd ⟨hport, hlisten, Or.inl ⟨p, info, hpid, hpt, hsub⟩⟩ hnone
      · intro p hp
        rw [hcp] at hp
        exact absurd hp (by simp [defaultProcStats])
  | some r =>
      have hcp : check_process env port fil =
          { status := "active", is_running := true, pid := r.1
            cpu_percent := r.2.cpu_percent
            memory_mb := (r.2.rss : Rat) / 1048576
            uptime := formatUptime r.2.uptimeSeconds } := by
        simp [check_process, hnf, hfm]
      obtain ⟨c, hc, hmc⟩ := findMatch_some _ _ _ _ _ _ hfm
      obtain ⟨hport, hlisten, hpid, hsub, hown⟩ :=
        matchListener_some _ _ _ _ _ _ hmc
      constructor
      · intro hall
        rw [hcp]
        constructor
        · intro _
          rcases hown with ⟨p, hr1, hpt⟩ | ⟨hr1, -⟩
          · exact ⟨c, hc, hport, hlisten, p, r.2, hpid.trans hr1, hpt, hsub⟩
          · exact absurd (hpid.trans hr1) (hall c hc hport hlisten)
        · intro _
          rfl
      · intro p hp
        rw [hcp] at hp
        have hp2 : r.1 = some p := hp
        rcases hown with ⟨p2, hr1, hpt⟩ | ⟨hr1, -⟩
        · obtain rfl : p2 = p := Option.some.inj (hr1.symm.trans hp2)
          exact ⟨c, hc, hpid.trans hr1, hport, hlisten, r.2, hpt, hsub⟩
        · rw [hr1] at hp2
          exact Option.noConfusion hp2

/-- Witness for the amended C2: a LISTEN socket on port 8000 with an
attributed owner whose command line contains `uvicorn` is classified
active. -/
theorem port_cmdline_match_amended_witness :
    (check_process ragEnv 8000 "uvicorn").status = "active" :=
  ((port_cmdline_match_amended ragEnv 8000 "uvicorn" rfl).1
      (by simp [ragEnv])).mpr
    ⟨{ port := 8000, connStatus := "LISTEN", pid := some 77 }, by simp [ragEnv],
      rfl, rfl, 77, uvicornInfo, rfl, by decide, by decide⟩
